import Mathlib

/-!
Shallow embedding of the pptx_converter content pipeline
(src/translator.py, src/ai_narrator.py, src/content_enricher.py,
src/tts_generator.py, and the orchestration step of src/main.py),
together with theorems settling the specification claims about it.

External collaborators (the translation engines, the Gemini generation
service, the speech-synthesis engines and the audio decoder) are modelled
as oracles: functions supplied as parameters that return the outcome the
external call would have produced (a result value, or an exception of a
given class).  Python dictionaries are modelled as structures whose
optional keys are `Option` fields; `dict.get(k, d)` becomes `(·.k).getD d`.
Machine floats of the source are modelled as rationals.
-/

namespace PptxConverter

/-! ## Python string primitives

`pyStrip`, `pyLStrip` model Python `str.strip()` / `str.lstrip()` with the
whitespace class approximated by `Char.isWhitespace`.  `pyTake`/`pyTakeLast`
model the slices `s[:n]` / `s[-n:]`.  `pySplitlines` models
`str.splitlines()` for the terminators `\n`, `\r` and `\r\n`. -/

def pyLStrip (s : String) : String :=
  ⟨s.data.dropWhile Char.isWhitespace⟩

def pyStrip (s : String) : String :=
  ⟨(s.data.dropWhile Char.isWhitespace).rdropWhile Char.isWhitespace⟩

def pyTake (n : Nat) (s : String) : String :=
  ⟨s.data.take n⟩

def pyTakeLast (n : Nat) (s : String) : String :=
  ⟨s.data.drop (s.data.length - n)⟩

def pyLen (s : String) : Nat :=
  s.data.length

/-- The words of a string in the sense of Python `str.split()` (split on
whitespace runs, empty pieces discarded). -/
def pyWordCount (s : String) : Nat :=
  ((s.split Char.isWhitespace).filter (fun w => w ≠ "")).length

lemma dropWhile_of_dropWhile_eq_self {α : Type} (p : α → Bool) (m : List α)
    (h : m.dropWhile p = m) :
    (m.rdropWhile p).dropWhile p = m.rdropWhile p := by
  rcases h' : m.rdropWhile p with _ | ⟨a, t⟩
  · simp
  · obtain ⟨s, hs⟩ := List.rdropWhile_prefix p m
    rw [h'] at hs
    have hm : m = a :: (t ++ s) := by simpa using hs.symm
    have ha : ¬ p a := by
      have h0 := List.dropWhile_eq_self_iff.mp (hm ▸ h) (by simp)
      simpa using h0
    simp [List.dropWhile_cons_of_neg ha]

lemma pyStrip_idem (s : String) : pyStrip (pyStrip s) = pyStrip s := by
  unfold pyStrip
  have h1 : (s.data.dropWhile Char.isWhitespace).dropWhile Char.isWhitespace
      = s.data.dropWhile Char.isWhitespace := List.dropWhile_idempotent _ _
  rw [show (⟨(s.data.dropWhile Char.isWhitespace).rdropWhile Char.isWhitespace⟩ : String).data
      = (s.data.dropWhile Char.isWhitespace).rdropWhile Char.isWhitespace from rfl]
  rw [dropWhile_of_dropWhile_eq_self _ _ h1, List.rdropWhile_idempotent]

lemma pyStrip_empty : pyStrip "" = "" := rfl

/-- The last `n` elements of a list (Python `l[-n:]`). -/
def lastN {α : Type} (n : Nat) (l : List α) : List α :=
  l.drop (l.length - n)

lemma lastN_lastN {α : Type} (n : Nat) (l : List α) :
    lastN n (lastN n l) = lastN n l := by
  unfold lastN
  rw [List.drop_drop, List.length_drop]
  congr 1
  omega

lemma lastN_getLast? {α : Type} (l : List α) :
    (lastN 2 l).getLast? = l.getLast? := by
  unfold lastN
  rw [List.getLast?_drop]
  split
  · next h =>
    have hl : l.length = 0 := by omega
    simp [List.eq_nil_of_length_eq_zero hl]
  · rfl

lemma lastN_eq_nil_iff {α : Type} (l : List α) :
    lastN 2 l = [] ↔ l = [] := by
  unfold lastN
  constructor
  · intro h
    have := congrArg List.length h
    simp at this
    exact List.eq_nil_of_length_eq_zero (by omega)
  · intro h; simp [h]

/-- Helper for `pySplitlines`: walks the character list, accumulating the
current line (in reverse); `\r\n`, `\r` and `\n` terminate a line, and a
trailing terminator does not open a new empty line (Python semantics). -/
def pySplitlinesGo : List Char → List Char → List String
  | [], [] => []
  | [], acc => [⟨acc.reverse⟩]
  | '\r' :: '\n' :: rest, acc => ⟨acc.reverse⟩ :: pySplitlinesGo rest []
  | '\r' :: rest, acc => ⟨acc.reverse⟩ :: pySplitlinesGo rest []
  | '\n' :: rest, acc => ⟨acc.reverse⟩ :: pySplitlinesGo rest []
  | c :: rest, acc => pySplitlinesGo rest (c :: acc)

/-- Python `str.splitlines()` restricted to the `\n`, `\r`, `\r\n`
terminators (the ones produced by this pipeline). -/
def pySplitlines (s : String) : List String :=
  pySplitlinesGo s.data []

/-! ## tts_generator.py -/

/-- One entry of `re.match(r'^\s*\d+\s*[\.)]?\s*$', line)` from
`generate_audio_for_json.strip_leading_slide_number`: optional whitespace,
at least one digit, optional whitespace, at most one `.` or `)`, optional
whitespace, end of line. -/
def matchesSlideNumberLine (line : String) : Bool :=
  let l1 := line.data.dropWhile Char.isWhitespace
  let digits := l1.takeWhile Char.isDigit
  if digits.isEmpty then false
  else
    let l2 := (l1.dropWhile Char.isDigit).dropWhile Char.isWhitespace
    let l3 := match l2 with
      | c :: rest => if c = '.' || c = ')' then rest else l2
      | [] => []
    (l3.dropWhile Char.isWhitespace).isEmpty

/-- `strip_leading_slide_number` from `generate_audio_for_json`
(src/tts_generator.py lines 238-242): pop leading lines that are purely a
slide-number token, rejoin with `\n`, and `lstrip` the result. -/
def stripLeadingSlideNumber (text : String) : String :=
  let lines := (pySplitlines text).dropWhile matchesSlideNumberLine
  pyLStrip (String.intercalate "\n" lines)

/-- A slide dictionary as `generate_audio_for_json` reads it from the
persisted JSON artifact: each field is an `Option` mirroring dict-key
presence; `slide.get(k, d)` is `(·.k).getD d`.  The `text` field is listed
because the code looks the key up, even though the records serialized by
`main.py` never carry it. -/
structure TtsSlide where
  slide_number : Option Nat
  original_text : Option String
  ai_narration : Option String
  enriched_text : Option String
  translated_text : Option String
  translated_blocks : Option (List String)
  text : Option String
  deriving Repr, DecidableEq

/-- The slide number used by the TTS stage: `slide.get('slide_number', idx)`
where `idx` is the 1-based enumeration index. -/
def ttsSlideNumber (idx : Nat) (s : TtsSlide) : Nat :=
  s.slide_number.getD idx

/-- The effective narration text computed by `generate_audio_for_json`
(src/tts_generator.py lines 212-221): start from
`slide.get('translated_text', '')` and, while the value is empty, fall
back to `slide.get('ai_narration', '')`, then `slide.get('text', '')`,
then the placeholder `"Slide N"`. -/
def ttsEffectiveText (idx : Nat) (s : TtsSlide) : String :=
  let t0 := s.translated_text.getD ""
  let t1 := if t0 = "" then s.ai_narration.getD "" else t0
  let t2 := if t1 = "" then s.text.getD "" else t1
  if t2 = "" then "Slide " ++ toString (ttsSlideNumber idx s) else t2

/-- Result of measuring a produced audio asset with the external decoder
(`AudioFileClip(...).duration`): either a measured duration or a decoding
exception. -/
inductive DecodeRes
  | ok (d : ℚ)
  | fail
  deriving Repr, DecidableEq

/-- Outcome of one `generate_audio_for_text` call on non-blank input, as
decided by the external engines: the primary (Google Cloud TTS) either
succeeds, writing a file of `fileBytes` bytes which is then decoded
(`cloudOk`), or raises, in which case the gTTS fallback either saves and
decodes successfully (`gttsOk`) or raises somewhere, leaving the
zero-byte placeholder (`gttsFail`). -/
inductive SynthOutcome
  | cloudOk (fileBytes : Nat) (dec : DecodeRes)
  | gttsOk (fileBytes : Nat) (d : ℚ)
  | gttsFail
  deriving Repr, DecidableEq

/-- `generate_audio_for_text` (src/tts_generator.py lines 109-161),
returning the size of the file left at `output_path` and the reported
duration.  Blank input writes a zero-byte file and reports 2.0 s; a cloud
decode failure falls back to the word-count estimate
`max(word_count / 2.3, 2.0)`; total gTTS failure writes a zero-byte file
and reports 3.0 s. -/
def generateAudioForText (text : String) (o : SynthOutcome) : Nat × ℚ :=
  if pyStrip text = "" then (0, 2)
  else
    match o with
    | .cloudOk b (.ok d) => (b, d)
    | .cloudOk b .fail => (b, max ((pyWordCount text : ℚ) / (23 / 10)) 2)
    | .gttsOk b d => (b, d)
    | .gttsFail => (0, 3)

/-- Round-half-even on rationals, modelling Python `round(x)` for the
exact values involved. -/
def roundHalfEven (q : ℚ) : ℤ :=
  let f := ⌊q⌋
  let r := q - (f : ℚ)
  if r < 1 / 2 then f
  else if 1 / 2 < r then f + 1
  else if f % 2 = 0 then f else f + 1

/-- Python `round(x, 2)`. -/
def pyRound2 (x : ℚ) : ℚ :=
  (roundHalfEven (100 * x) : ℚ) / 100

/-- The duration recorded for one slide by `generate_audio_for_json`
(src/tts_generator.py lines 250-272): `none` for the synthesis oracle
means the `generate_audio_for_text` call raised (caught by the outer
`except`, recording 3.0 and writing an empty placeholder); otherwise the
reported duration is kept only if the produced file is non-empty, else
3.0. -/
def ttsRecordedDuration (cleaned : String) (oc : Option SynthOutcome) : ℚ :=
  match oc with
  | none => 3
  | some o =>
      let r := generateAudioForText cleaned o
      if 0 < r.1 then r.2 else 3

/-- The per-slide output of `generate_audio_for_json` over the slides of
the JSON artifact: for the slide at 1-based position `idx`, compute the
effective text, strip leading slide-number lines, synthesize under the
oracle, and record `round(duration, 2)` in the slide's `duration` field.
The audio file path bookkeeping is filesystem-level and not modelled. -/
def generateAudioForJson (slides : List TtsSlide)
    (oracle : Nat → Option SynthOutcome) : List (TtsSlide × ℚ) :=
  slides.mapIdx fun p s =>
    let idx := p + 1
    let cleaned := stripLeadingSlideNumber (ttsEffectiveText idx s)
    (s, pyRound2 (ttsRecordedDuration cleaned (oracle idx)))

/-- The fallback chain exactly as the specification words it (claim C1):
first non-empty of translated text, narration text, enriched text, raw
text, placeholder.  Stated only to be compared with `ttsEffectiveText`,
the chain the code implements. -/
def specEffectiveText (idx : Nat) (s : TtsSlide) : String :=
  let t0 := s.translated_text.getD ""
  let t1 := if t0 = "" then s.ai_narration.getD "" else t0
  let t2 := if t1 = "" then s.enriched_text.getD "" else t1
  let t3 := if t2 = "" then s.original_text.getD "" else t2
  if t3 = "" then "Slide " ++ toString (ttsSlideNumber idx s) else t3

/-! ## translator.py -/

/-- Outcome of one call of the selected engine's `translate_func` on one
piece of text: the translated string, or an exception carrying its
message. -/
inductive TransOutcome
  | ok (t : String)
  | exn (msg : String)
  deriving Repr, DecidableEq

/-- Availability state of the three translation providers of
src/translator.py: module import flags, the DeepL API key lookup, and
whether each provider's constructor succeeds. -/
structure EngineEnv where
  deeplAvailable : Bool
  deeplKey : Option String
  deeplInitOk : Bool
  deepTranslatorAvailable : Bool
  deepTranslatorInitOk : Bool
  googletransAvailable : Bool
  googletransInitOk : Bool
  deriving Repr, DecidableEq

inductive Engine
  | deepl
  | deepTranslator
  | googletrans
  deriving Repr, DecidableEq

/-- The once-per-job engine selection of `translate_texts`
(src/translator.py lines 85-155): DeepL if importable, keyed and its
constructor succeeds; else deep-translator; else googletrans; else the
stage raises. -/
def selectEngine (env : EngineEnv) : Option Engine :=
  let deepl : Option Engine :=
    if env.deeplAvailable then
      match env.deeplKey with
      | some _ => if env.deeplInitOk then some .deepl else none
      | none => none
    else none
  match deepl with
  | some e => some e
  | none =>
      if env.deepTranslatorAvailable && env.deepTranslatorInitOk then
        some .deepTranslator
      else if env.googletransAvailable && env.googletransInitOk then
        some .googletrans
      else none

/-- The message of the exception `translate_texts` raises when no engine
could be selected (src/translator.py lines 147-155, first line). -/
def noEngineMsg : String :=
  "No translation module available!"

/-- The retry loop around `translate_func` (src/translator.py lines
167-195 for the slide's main text with `factor = 2`, lines 206-215 for a
block with `factor = 1`): up to 3 attempts; after failed attempt `a`
(1-based, `a < 3`) sleep `a * factor` seconds; the third failure
re-raises.  Returns the result, the number of attempts made, and the
sleeps performed. -/
def tryAttempts (f : Nat → TransOutcome) (factor : Nat) :
    Except String String × Nat × List Nat :=
  match f 1 with
  | .ok t => (.ok t, 1, [])
  | .exn _ =>
      match f 2 with
      | .ok t => (.ok t, 2, [factor])
      | .exn _ =>
          match f 3 with
          | .ok t => (.ok t, 3, [factor, 2 * factor])
          | .exn m3 => (.error m3, 3, [factor, 2 * factor])

/-- A slide dictionary as it flows through `main.py` and into
`translate_texts`: the extractor guarantees `slide_number`, `text` and
`text_blocks`; the remaining keys are optional. -/
structure MainSlide where
  slide_number : Nat
  text : String
  text_blocks : List String
  original_text : Option String
  ai_narration : Option String
  enriched_text : Option String
  translated_text : Option String
  translated_blocks : Option (List String)
  translation_error : Option String
  deriving Repr, DecidableEq

/-- The per-block loop of `translate_texts` (src/translator.py lines
201-218), translating the blocks starting at block index `j` under the
per-slide oracle `f : unit → attempt → outcome` (unit `j + 1` is block
`j`): a blank block contributes `''` without any call; a non-blank block
is retried up to 3 times with `factor = 1`, its final failure aborting
the whole slide (`.error`). -/
def translateBlocksGo (f : Nat → Nat → TransOutcome) (j : Nat) :
    List String → Except String (List String)
  | [] => .ok []
  | b :: rest =>
      if pyStrip b = "" then
        (translateBlocksGo f (j + 1) rest).map (fun l => "" :: l)
      else
        match (tryAttempts (f (j + 1)) 1).1 with
        | .ok t =>
            (translateBlocksGo f (j + 1) rest).map
              (fun l => (if t = "" then "" else t) :: l)
        | .error m => .error m

/-- The error record built by the outer `except` of the per-slide loop
(src/translator.py lines 242-256): `slide.copy()` with empty translation,
empty block list and the error message attached. -/
def transErrorRecord (s : MainSlide) (msg : String) : MainSlide :=
  { s with
    translated_text := some ""
    translated_blocks := some []
    translation_error := some msg }

/-- Processing of one slide by `translate_texts` (src/translator.py lines
160-256) under the per-slide oracle `f : unit → attempt → outcome` (unit
`0` is the slide's main text).  Blank slides pass through with empty
translation and no error tag; a main text whose 3 attempts fail, a main
result that is empty after stripping, or a failing block, all fall to the
error record; otherwise the record carries the main translation and the
per-block translations. -/
def translateSlide (f : Nat → Nat → TransOutcome) (s : MainSlide) : MainSlide :=
  if pyStrip s.text = "" then
    { s with translated_text := some "", translated_blocks := some [] }
  else
    match (tryAttempts (f 0) 2).1 with
    | .error m => transErrorRecord s m
    | .ok t =>
        if pyStrip t = "" then
          transErrorRecord s "Translation result returned empty or None"
        else
          match translateBlocksGo f 0 s.text_blocks with
          | .error m => transErrorRecord s m
          | .ok bs =>
              { s with
                translated_text := some t
                translated_blocks := some bs }

/-- `translate_texts` (src/translator.py lines 71-265): select an engine
once for the job — raising if none is available — then process the slides
in order, each under its own sub-oracle `O p` (`p` the 1-based slide
position).  The engine identity only affects logging and the post-slide
rate-limit delay, not the records, so the oracle abstracts it. -/
def translateTexts (env : EngineEnv) (O : Nat → Nat → Nat → TransOutcome)
    (slides : List MainSlide) : Except String (List MainSlide) :=
  match selectEngine env with
  | none => .error noEngineMsg
  | some _ => .ok (slides.mapIdx fun p s => translateSlide (O (p + 1)) s)

/-! ## main.py, translation step of start_conversion_thread -/

/-- The fallback text `slide.get('enriched_text',
slide.get('ai_narration', slide.get('text', '')))` used by `main.py`
(lines 304-307 and 315-324): key presence, not emptiness, decides. -/
def fallbackText (s : MainSlide) : String :=
  s.enriched_text.getD (s.ai_narration.getD s.text)

/-- Step 3 of `start_conversion_thread` (src/main.py lines 299-326): when
the translator module is importable and the target is not English,
overwrite each slide's `text` with the fallback text and call
`translate_texts`; if that call raises, keep the slides and store the
fallback text as `translated_text`; when translation is skipped, store
the fallback text directly.  The job continues in every case. -/
def mainTranslationStep (translatorAvailable : Bool) (langCode : String)
    (env : EngineEnv) (O : Nat → Nat → Nat → TransOutcome)
    (slides : List MainSlide) : List MainSlide :=
  if translatorAvailable && langCode ≠ "en" then
    let slides2 := slides.map fun s => { s with text := fallbackText s }
    match translateTexts env O slides2 with
    | .ok recs => recs
    | .error _ =>
        slides2.map fun s => { s with translated_text := some (fallbackText s) }
  else
    slides.map fun s => { s with translated_text := some (fallbackText s) }

/-- Step 4 of `start_conversion_thread` (src/main.py lines 328-333): any
falsy `translated_text` is replaced by the slide's `text` key (always
present), any falsy `slide_number` by the 1-based position. -/
def mainValidate (slides : List MainSlide) : List MainSlide :=
  slides.mapIdx fun idx s =>
    let s1 :=
      if s.translated_text.getD "" = "" then
        { s with translated_text := some s.text }
      else s
    if s1.slide_number = 0 then { s1 with slide_number := idx + 1 } else s1

/-- Step 5 of `start_conversion_thread` (src/main.py lines 349-361): the
slide entry written to the JSON artifact.  Note the serialized record
carries `original_text` but no `text` key. -/
def jsonOfMain (s : MainSlide) : TtsSlide :=
  { slide_number := some s.slide_number
    original_text := some (s.original_text.getD s.text)
    ai_narration := some (s.ai_narration.getD "")
    enriched_text := some (s.enriched_text.getD "")
    translated_text := some (s.translated_text.getD "")
    translated_blocks := some (s.translated_blocks.getD [])
    text := none }

/-! ## ai_narrator.py -/

/-- One preset of `NARRATION_STYLES` (src/ai_narrator.py lines 44-75). -/
structure StyleConfig where
  name : String
  description : String
  temperature : ℚ
  prompt_style : String
  deriving Repr, DecidableEq

def narrationStyles : List (String × StyleConfig) :=
  [("professional",
    { name := "Professional Lecturer"
      description := "Formal, academic tone suitable for business and educational presentations"
      temperature := 1 / 2
      prompt_style := "formal and professional, like a university professor or corporate trainer" }),
   ("engaging",
    { name := "Engaging Teacher"
      description := "Conversational and friendly, like your favorite teacher explaining concepts"
      temperature := 7 / 10
      prompt_style := "conversational and engaging, like a favorite teacher who makes learning fun" }),
   ("enthusiastic",
    { name := "Enthusiastic Presenter"
      description := "Energetic and passionate, great for motivational or sales presentations"
      temperature := 4 / 5
      prompt_style := "highly energetic and passionate, using vivid language and excitement" }),
   ("casual",
    { name := "Casual Explainer"
      description := "Relaxed and friendly, using simple language and everyday analogies"
      temperature := 7 / 10
      prompt_style := "relaxed and friendly, using simple everyday language and relatable examples" }),
   ("storyteller",
    { name := "Story Teller"
      description := "Narrative style that weaves information into a compelling story"
      temperature := 4 / 5
      prompt_style := "narrative and story-driven, connecting ideas into a flowing story" })]

/-- `_get_style_config` (src/ai_narrator.py lines 135-137): lookup with
fallback to the `engaging` preset. -/
def getStyleConfig (key : String) : StyleConfig :=
  match (narrationStyles.lookup key) with
  | some c => c
  | none =>
      { name := "Engaging Teacher"
        description := "Conversational and friendly, like your favorite teacher explaining concepts"
        temperature := 7 / 10
        prompt_style := "conversational and engaging, like a favorite teacher who makes learning fun" }

/-- One entry of `self.conversation_history`
(src/ai_narrator.py lines 267-269). -/
structure HistEntry where
  slide_number : Nat
  text : String
  narration : String
  deriving Repr, DecidableEq

/-- `_build_context_aware_prompt` (src/ai_narrator.py lines 139-203).
The `is_title` parameter of the source is accepted and ignored, exactly
as the source ignores it. -/
def buildContextAwarePrompt (style : String) (slideText : String)
    (slideNumber totalSlides : Nat) (hist : List HistEntry) : String :=
  let styleDesc := (getStyleConfig style).prompt_style
  if slideNumber = 1 then
    let t := toString totalSlides
    "You are the presenter starting a " ++ t ++ "-slide presentation.\n" ++
    "This is the Title Slide: \x27" ++ slideText ++ "\x27\n\n" ++
    "INSTRUCTIONS:\n" ++
    "1. Start with \x27Good morning everyone\x27 (or a similar warm welcome).\n" ++
    "2. Introduce the topic clearly.\n" ++
    "3. Give a brief 1-sentence hook about what we will cover.\n" ++
    "Tone: " ++ styleDesc
  else if slideNumber = totalSlides then
    let context :=
      match hist.getLast? with
      | some lastSlide =>
          "Previous slide discussed: " ++ pyTake 100 lastSlide.narration ++ "..."
      | none => ""
    "You are concluding a presentation. This is the Final Slide.\n" ++
    "Context from previous slide: " ++ context ++ "\n" ++
    "Final Slide Content: " ++ slideText ++ "\n\n" ++
    "INSTRUCTIONS:\n" ++
    "1. Briefly summarize the main takeaway.\n" ++
    "2. Do NOT say \x27Good morning\x27 or introduce yourself.\n" ++
    "3. End with this exact sign-off: \x27Thank you for your attention, and I will see you next week.\x27\n" ++
    "Tone: " ++ styleDesc
  else
    let contextItems := (lastN 2 hist).map fun prevSlide =>
      "Slide " ++ toString prevSlide.slide_number ++ " ended with: ..." ++
        pyTakeLast 150 prevSlide.narration
    let context := String.intercalate "\n" contextItems
    "You are narrating slide " ++ toString slideNumber ++ " of " ++
      toString totalSlides ++ " (Middle of presentation).\n\n" ++
    "PREVIOUS CONTEXT (flow from this):\n" ++ context ++ "\n\n" ++
    "CURRENT SLIDE CONTENT:\n" ++ slideText ++ "\n\n" ++
    "STRICT INSTRUCTIONS:\n" ++
    "1. Do NOT say \x27Good morning\x27, \x27Hello\x27, or \x27Welcome\x27 again.\n" ++
    "2. Do NOT introduce yourself.\n" ++
    "3. Use a transition phrase (e.g., \x27Moving on...\x27, \x27Furthermore...\x27, \x27As we can see here...\x27) to connect to the previous context.\n" ++
    "4. Explain the current slide content naturally.\n" ++
    "Tone: " ++ styleDesc

/-- Outcome of one `generate_content` call for narration, classified the
way lines 275-293 of src/ai_narrator.py classify the raised exception;
`ok resp` covers any returned response text (possibly empty). -/
inductive GenResult
  | ok (resp : String)
  | errCritical
  | errRateLimit
  | errOther
  deriving Repr, DecidableEq

/-- A slide dictionary entering `narrate_slides`; only the `text` key is
read. -/
structure NarSlide where
  text : String
  deriving Repr, DecidableEq

/-- The per-slide result of `narrate_slides`: the original text, the
`ai_narration` written into the slide dict, and the `enriched_text` key
if enrichment succeeded for the slide. -/
structure NarOut where
  text : String
  ai_narration : String
  enriched_text : Option String
  deriving Repr, DecidableEq

/-- The mutable state of one `narrate_slides` run: the conversation
history, the `api_disabled` circuit-breaker flag, and (for observation)
the 1-based index of the slide responsible for each generation call, in
order. -/
structure NarState where
  hist : List HistEntry
  apiDisabled : Bool
  callLog : List Nat
  deriving Repr, DecidableEq

def initNarState : NarState :=
  { hist := [], apiDisabled := false, callLog := [] }

/-- The attempt loop of `narrate_slides` (src/ai_narrator.py lines
251-295) for slide `i` with stripped text `text` and fallback `enriched`,
under the per-slide oracle `g : attempt → GenResult`.  Returns the
narration stored on the slide, the history entry appended (if any),
whether the circuit breaker tripped, and the number of calls made. -/
def narrateAttempt2 (i : Nat) (text enriched : String)
    (g : Nat → GenResult) : String × Option HistEntry × Bool × Nat :=
  match g 2 with
  | .ok resp =>
      if pyStrip resp ≠ "" then
        (pyStrip resp, some ⟨i, text, pyStrip resp⟩, false, 2)
      else (enriched, none, false, 2)
  | .errCritical => (enriched, none, true, 2)
  | .errRateLimit => (enriched, none, false, 2)
  | .errOther => (enriched, none, false, 2)

def narrateAttempts (i : Nat) (text enriched : String)
    (g : Nat → GenResult) : String × Option HistEntry × Bool × Nat :=
  match g 1 with
  | .ok resp =>
      if pyStrip resp ≠ "" then
        (pyStrip resp, some ⟨i, text, pyStrip resp⟩, false, 1)
      else narrateAttempt2 i text enriched g
  | .errCritical => (enriched, none, true, 1)
  | .errRateLimit => narrateAttempt2 i text enriched g
  | .errOther => narrateAttempt2 i text enriched g

/-- Processing of one slide by `narrate_slides` (src/ai_narrator.py lines
220-295).  Slides whose stripped text is shorter than 5 characters, and
every slide once `api_disabled` is set, receive the stripped text as
narration without any service interaction.  Otherwise enrichment runs
first (`enrichO i = some e` meaning `enrich_slide` returned `e`, `none`
meaning it raised, falling back to the stripped text), then the attempt
loop. -/
def narrateStep (g : Nat → Nat → GenResult) (enrichO : Nat → Option String)
    (enricherOn : Bool) (st : NarState) (i : Nat) (s : NarSlide) :
    NarOut × NarState :=
  let text := pyStrip s.text
  if pyLen text < 5 then
    ({ text := s.text, ai_narration := text, enriched_text := none }, st)
  else if st.apiDisabled then
    ({ text := s.text, ai_narration := text, enriched_text := none }, st)
  else
    let pair : String × Option String :=
      if enricherOn then
        match enrichO i with
        | some e => (e, some e)
        | none => (text, none)
      else (text, none)
    let r := narrateAttempts i text pair.1 (g i)
    ({ text := s.text, ai_narration := r.1, enriched_text := pair.2 },
     { hist := st.hist ++ r.2.1.toList
       apiDisabled := st.apiDisabled || r.2.2.1
       callLog := st.callLog ++ List.replicate r.2.2.2 i })

/-- The slide loop of `narrate_slides` starting at 1-based index `i` with
state `st`, producing the per-slide outputs and the final state. -/
def narrateGo (g : Nat → Nat → GenResult) (enrichO : Nat → Option String)
    (enricherOn : Bool) : Nat → NarState → List NarSlide →
    List NarOut × NarState
  | _, st, [] => ([], st)
  | i, st, s :: rest =>
      let r := narrateStep g enrichO enricherOn st i s
      let r2 := narrateGo g enrichO enricherOn (i + 1) r.2 rest
      (r.1 :: r2.1, r2.2)

/-- `narrate_slides` (src/ai_narrator.py lines 205-297): the history is
reset, `api_disabled` starts false, and the slides are processed in
order, 1-based. -/
def narrateSlides (g : Nat → Nat → GenResult) (enrichO : Nat → Option String)
    (enricherOn : Bool) (slides : List NarSlide) : List NarOut × NarState :=
  narrateGo g enrichO enricherOn 1 initNarState slides

/-! ## content_enricher.py -/

/-- One entry of `self.enrichment_history`
(src/content_enricher.py lines 189-193). -/
structure EnrichEntry where
  slide_number : Nat
  original : String
  summary : String
  deriving Repr, DecidableEq

/-- The job-scoped state of a `ContentEnricher`. -/
structure EnrichState where
  enrichment_level : String
  presentation_topic : String
  enrichment_history : List EnrichEntry
  deriving Repr, DecidableEq

/-- Outcome of one `generate_content` call for enrichment, classified the
way `_call_gemini` (src/content_enricher.py lines 210-253) classifies
it. -/
inductive GemResult
  | ok (resp : String)
  | errCritical
  | errRateLimit
  | errOther
  deriving Repr, DecidableEq

/-- `_call_gemini` (src/content_enricher.py lines 197-253) under the
per-call oracle `g : attempt → GemResult`: up to 2 attempts; a critical
error returns `None` immediately; an empty response or a second failure
returns `None`.  Also returns the number of external calls made. -/
def callGemini (g : Nat → GemResult) : Option String × Nat :=
  let second : Option String × Nat :=
    match g 2 with
    | .ok resp => if pyStrip resp ≠ "" then (some (pyStrip resp), 2) else (none, 2)
    | .errCritical => (none, 2)
    | .errRateLimit => (none, 2)
    | .errOther => (none, 2)
  match g 1 with
  | .ok resp => if pyStrip resp ≠ "" then (some (pyStrip resp), 1) else second
  | .errCritical => (none, 1)
  | .errRateLimit => second
  | .errOther => second

/-- `ContentEnricher.enrich_slide` (src/content_enricher.py lines
151-195), returning the text handed back to the caller, the updated
state, and the number of external generation calls made.  The function
body raises nowhere: the only external interaction is inside
`_call_gemini`, which catches every exception, so the embedding is total
with no error case.  Prompt construction (which lives in the absent
`enrichment_config` module) is abstracted by the oracle `g`. -/
def enrichSlide (st : EnrichState) (slideText : String) (slideNumber : Nat)
    (g : Nat → GemResult) : String × EnrichState × Nat :=
  if st.enrichment_level = "none" then
    (pyStrip slideText, st, 0)
  else if slideText = "" || pyLen (pyStrip slideText) < 5 then
    (slideText, st, 0)
  else
    let r := callGemini g
    let summary :=
      match r.1 with
      | some e => pyTake 100 e
      | none => pyTake 100 slideText
    let st2 :=
      { st with
        enrichment_history :=
          st.enrichment_history ++ [⟨slideNumber, pyTake 100 slideText, summary⟩] }
    (match r.1 with
     | some e => e
     | none => slideText, st2, r.2)

/-! ## Shared helper lemmas -/

lemma slideTag_ne_empty (n : Nat) : "Slide " ++ toString n ≠ "" := by
  intro h
  have h2 := congrArg String.data h
  rw [String.data_append] at h2
  simp at h2

lemma pyStrip_ne_empty_of {t : String} (h : pyStrip t ≠ "") : t ≠ "" := by
  intro h0
  exact h (h0 ▸ pyStrip_empty)

/-! ## Concrete instances used by counterexamples and witnesses -/

/-- A slide record shaped like the pipeline's serialized output for a
slide whose translation came back empty, whose narration is empty, but
whose enrichment succeeded. -/
def c1MainSlide : MainSlide :=
  { slide_number := 7
    text := "Raw slide text"
    text_blocks := []
    original_text := none
    ai_narration := some ""
    enriched_text := some "Enriched supplementary detail"
    translated_text := some ""
    translated_blocks := none
    translation_error := some "network error" }

def c8State : EnrichState :=
  { enrichment_level := "none"
    presentation_topic := ""
    enrichment_history := [] }

/-! ## Claim theorems -/

/-- C1, counterexample: on the serialized record of `c1MainSlide` the
code computes the placeholder `"Slide 7"`, while the chain claimed by the
spec (which consults `enriched_text` before raw text) would compute the
enrichment output; the two chains disagree, so the effective text is not
the first non-empty value of
translated → narration → enriched → raw → placeholder. -/
theorem claim_C1_counterexample :
    ttsEffectiveText 7 (jsonOfMain c1MainSlide) = "Slide 7" ∧
    specEffectiveText 7 (jsonOfMain c1MainSlide) = "Enriched supplementary detail" ∧
    ttsEffectiveText 7 (jsonOfMain c1MainSlide) ≠
      specEffectiveText 7 (jsonOfMain c1MainSlide) := by
  refine ⟨rfl, rfl, ?_⟩
  decide

/-- C1, amended: the effective narration text is the first non-empty
value of `translated_text`, then `ai_narration`, then the `text` key —
absent from every record serialized by main.py, so in the pipeline the
next stop is the placeholder `"Slide N"`; neither `enriched_text` nor the
raw (original) text is ever consulted, and the result is always
non-empty. -/
theorem claim_C1 (idx : Nat) (s : TtsSlide) :
    ttsEffectiveText idx s ≠ "" ∧
    (s.translated_text.getD "" ≠ "" →
      ttsEffectiveText idx s = s.translated_text.getD "") ∧
    (s.translated_text.getD "" = "" → s.ai_narration.getD "" ≠ "" →
      ttsEffectiveText idx s = s.ai_narration.getD "") ∧
    (s.translated_text.getD "" = "" → s.ai_narration.getD "" = "" →
      s.text = none →
      ttsEffectiveText idx s = "Slide " ++ toString (ttsSlideNumber idx s)) := by
  unfold ttsEffectiveText
  by_cases h0 : s.translated_text.getD "" = "" <;>
    by_cases h1 : s.ai_narration.getD "" = "" <;>
      simp only [h0, h1, if_pos, if_neg, if_true, if_false, ite_true, ite_false,
        not_true, not_false_iff]
  · by_cases h2 : s.text.getD "" = ""
    · simp [h0, h1, h2, slideTag_ne_empty]
    · simp [h0, h1, h2, slideTag_ne_empty]
      intro h3
      rw [h3] at h2
      simp at h2
  · simp [h0, h1]
  · simp [h0]
  · simp [h0]

/-- C1, witness for the amended theorem: on the serialized record of
`c1MainSlide` (empty translation, empty narration, no `text` key) the
effective text is the placeholder. -/
theorem claim_C1_witness :
    ttsEffectiveText 7 (jsonOfMain c1MainSlide) =
      "Slide " ++ toString (ttsSlideNumber 7 (jsonOfMain c1MainSlide)) :=
  (claim_C1 7 (jsonOfMain c1MainSlide)).2.2.2 rfl rfl rfl

/-- C8: with the enrichment level set to the off value "none",
`enrich_slide` returns the input trimmed but otherwise unchanged, makes
zero calls to the external generation service, and leaves the enricher
state untouched; the embedded function is total, so no exception can
escape. -/
theorem claim_C8 (st : EnrichState) (text : String) (n : Nat)
    (g : Nat → GemResult) (h : st.enrichment_level = "none") :
    enrichSlide st text n g = (pyStrip text, st, 0) := by
  unfold enrichSlide
  rw [h]
  simp

/-- C8, witness: a concrete "none"-level state and input. -/
theorem claim_C8_witness :
    enrichSlide c8State "  Machine Learning basics  " 1 (fun _ => .errCritical)
      = ("Machine Learning basics", c8State, 0) := by
  rw [claim_C8 c8State "  Machine Learning basics  " 1 (fun _ => .errCritical) rfl]
  rfl

/-! ## C5: no translation engine available -/

/-- The `text`-overwriting pass of src/main.py lines 304-307. -/
def mutateTexts (l : List MainSlide) : List MainSlide :=
  l.map fun s => { s with text := fallbackText s }

def translatedTexts (l : List MainSlide) : List (Option String) :=
  l.map fun r => r.translated_text

def fallbackTexts (l : List MainSlide) : List (Option String) :=
  l.map fun s => some (fallbackText s)

lemma fallbackText_mutate (s : MainSlide) :
    fallbackText { s with text := fallbackText s } = fallbackText s := by
  unfold fallbackText
  cases s.enriched_text <;> cases s.ai_narration <;> simp

/-- An availability state in which none of the three translation
providers can be selected. -/
def c5Env : EngineEnv :=
  { deeplAvailable := false
    deeplKey := none
    deeplInitOk := false
    deepTranslatorAvailable := false
    deepTranslatorInitOk := false
    googletransAvailable := false
    googletransInitOk := false }

def c5Oracle : Nat → Nat → Nat → TransOutcome := fun _ _ _ => .exn "unreachable"

def c5Slide : MainSlide :=
  { slide_number := 1
    text := "Hello world"
    text_blocks := ["Hello world"]
    original_text := none
    ai_narration := some "Narrated greeting text"
    enriched_text := none
    translated_text := none
    translated_blocks := none
    translation_error := none }

/-- C5, counterexample: with no engine available and a non-English
target, the orchestrator of main.py does not stop the job — it returns a
normal record list in which every slide's `translated_text` is the
fallback text, contradicting the claim that the job stops rather than
continuing with fallback text. -/
theorem claim_C5_counterexample :
    selectEngine c5Env = none ∧
    mainTranslationStep true "tr" c5Env c5Oracle [c5Slide] =
      [{ c5Slide with
          text := "Narrated greeting text"
          translated_text := some "Narrated greeting text" }] := by
  exact ⟨rfl, rfl⟩

/-- C5, amended: when no translation engine can be selected,
`translate_texts` itself does fail with the "No translation module
available!" exception (the stage-level cause is surfaced), but
`start_conversion_thread` catches that exception and the job continues:
every slide's `translated_text` is set from the key-presence fallback
chain enriched_text → ai_narration → text. -/
theorem claim_C5 (env : EngineEnv) (O : Nat → Nat → Nat → TransOutcome)
    (slides : List MainSlide) (lang : String)
    (h1 : selectEngine env = none) (h2 : lang ≠ "en") :
    translateTexts env O (mutateTexts slides) = .error noEngineMsg ∧
    translatedTexts (mainTranslationStep true lang env O slides) =
      fallbackTexts slides := by
  have hraise : translateTexts env O (mutateTexts slides) = .error noEngineMsg := by
    unfold translateTexts
    rw [h1]
  refine ⟨hraise, ?_⟩
  unfold mainTranslationStep
  simp only [h2, Bool.true_and, ne_eq, not_false_iff, decide_True, if_true, ite_true]
  rw [show (slides.map fun s => { s with text := fallbackText s }) = mutateTexts slides
    from rfl, hraise]
  unfold translatedTexts fallbackTexts mutateTexts
  simp [Function.comp, fallbackText_mutate]

/-- C5, witness for the amended theorem at the concrete no-engine
environment. -/
theorem claim_C5_witness :
    translateTexts c5Env c5Oracle (mutateTexts [c5Slide]) = .error noEngineMsg ∧
    translatedTexts (mainTranslationStep true "tr" c5Env c5Oracle [c5Slide]) =
      fallbackTexts [c5Slide] :=
  claim_C5 c5Env c5Oracle [c5Slide] "tr" rfl (by decide)

/-! ## C7: empty translated_text and the error tag -/

lemma translateTexts_ok {env : EngineEnv} {O : Nat → Nat → Nat → TransOutcome}
    {slides recs : List MainSlide}
    (hok : translateTexts env O slides = .ok recs) :
    recs = slides.mapIdx fun p s => translateSlide (O (p + 1)) s := by
  unfold translateTexts at hok
  cases he : selectEngine env with
  | none => rw [he] at hok; exact absurd hok (by simp)
  | some e => rw [he] at hok; simpa using hok.symm

lemma translateTexts_length {env : EngineEnv} {O : Nat → Nat → Nat → TransOutcome}
    {slides recs : List MainSlide}
    (hok : translateTexts env O slides = .ok recs) :
    recs.length = slides.length := by
  rw [translateTexts_ok hok]
  exact List.length_mapIdx

lemma translateTexts_get {env : EngineEnv} {O : Nat → Nat → Nat → TransOutcome}
    {slides recs : List MainSlide}
    (hok : translateTexts env O slides = .ok recs)
    (p : Nat) (hp : p < recs.length) (hp2 : p < slides.length) :
    recs.get ⟨p, hp⟩ = translateSlide (O (p + 1)) (slides.get ⟨p, hp2⟩) := by
  have h := translateTexts_ok hok
  subst h
  exact List.get_mapIdx slides _ p hp2

/-- The slide record produced by `translateSlide` always carries the
`translated_text` and `translated_blocks` keys. -/
lemma translateSlide_char (f : Nat → Nat → TransOutcome) (s : MainSlide) :
    (pyStrip s.text = "" ∧
      translateSlide f s =
        { s with translated_text := some "", translated_blocks := some [] }) ∨
    (pyStrip s.text ≠ "" ∧ ∃ m, translateSlide f s = transErrorRecord s m) ∨
    (pyStrip s.text ≠ "" ∧ ∃ t bs, pyStrip t ≠ "" ∧
      (tryAttempts (f 0) 2).1 = .ok t ∧
      translateBlocksGo f 0 s.text_blocks = .ok bs ∧
      translateSlide f s =
        { s with translated_text := some t, translated_blocks := some bs }) := by
  unfold translateSlide
  split
  next hb => left; exact ⟨hb, rfl⟩
  next hb =>
    split
    next m htry => right; left; exact ⟨hb, m, rfl⟩
    next t htry =>
      split
      next hts => right; left; exact ⟨hb, _, rfl⟩
      next hts =>
        split
        next m hbl => right; left; exact ⟨hb, m, rfl⟩
        next bs hbl => right; right; exact ⟨hb, t, bs, hts, htry, hbl, rfl⟩

def c7Env : EngineEnv :=
  { deeplAvailable := false
    deeplKey := none
    deeplInitOk := false
    deepTranslatorAvailable := true
    deepTranslatorInitOk := true
    googletransAvailable := false
    googletransInitOk := false }

def c7Oracle : Nat → Nat → Nat → TransOutcome := fun _ _ _ => .exn "network down"

/-- A slide with no text at all, as the extractor emits for a visual-only
slide. -/
def c7Slide : MainSlide :=
  { slide_number := 1
    text := ""
    text_blocks := []
    original_text := none
    ai_narration := none
    enriched_text := none
    translated_text := none
    translated_blocks := none
    translation_error := none }

def c7Slide2 : MainSlide :=
  { c7Slide with slide_number := 2, text := "Guten Tag" }

def c7In : List MainSlide := [c7Slide, c7Slide2]

/-- The record the stage produces for the blank slide `c7Slide`. -/
def c7BlankOut : MainSlide :=
  { c7Slide with translated_text := some "", translated_blocks := some [] }

def c7Out : List MainSlide :=
  [c7BlankOut, transErrorRecord c7Slide2 "network down"]

/-- C7, counterexample: a blank-input slide comes out of the translation
stage with `translated_text = ""` and `translation_error` absent, so an
empty `translated_text` does not always signal a translation failure —
it also marks a successfully processed empty slide. -/
theorem claim_C7_counterexample :
    translateTexts c7Env c7Oracle [c7Slide] = .ok [c7BlankOut] ∧
    c7BlankOut.translated_text = some "" ∧
    c7BlankOut.translation_error = none := by
  exact ⟨rfl, rfl, rfl⟩

/-- C7, amended: for slides entering the stage without a stale error tag,
`translated_text` is empty iff translation failed for the slide or the
slide's input text was blank; only failures attach `translation_error`,
so it is the tag, not emptiness alone, that distinguishes failure from a
successfully processed empty slide. -/
theorem claim_C7 (env : EngineEnv) (O : Nat → Nat → Nat → TransOutcome)
    (slides recs : List MainSlide) (p : Nat)
    (hok : translateTexts env O slides = .ok recs)
    (hp : p < recs.length) (hp2 : p < slides.length)
    (hfresh : (slides.get ⟨p, hp2⟩).translation_error = none) :
    ((recs.get ⟨p, hp⟩).translated_text = some "" ↔
      (recs.get ⟨p, hp⟩).translation_error ≠ none ∨
        pyStrip (slides.get ⟨p, hp2⟩).text = "") ∧
    (pyStrip (slides.get ⟨p, hp2⟩).text = "" →
      (recs.get ⟨p, hp⟩).translation_error = none) := by
  rw [translateTexts_get hok p hp hp2]
  rcases translateSlide_char (O (p + 1)) (slides.get ⟨p, hp2⟩) with
    ⟨hb, heq⟩ | ⟨hb, m, heq⟩ | ⟨hb, t, bs, hts, htry, hbl, heq⟩ <;>
    rw [heq] <;>
    simp only [List.get_eq_getElem] at hfresh hb ⊢
  · simp [hfresh, hb]
  · simp [transErrorRecord, hb]
  · simp [hfresh, hb, pyStrip_ne_empty_of hts]

/-- C7, witness for the amended theorem at a concrete two-slide job: the
first slide blank, the second failing all attempts. -/
theorem claim_C7_witness :
    ((c7Out.get ⟨0, by decide⟩).translated_text = some "" ↔
      (c7Out.get ⟨0, by decide⟩).translation_error ≠ none ∨
        pyStrip (c7In.get ⟨0, by decide⟩).text = "") ∧
    (pyStrip (c7In.get ⟨0, by decide⟩).text = "" →
      (c7Out.get ⟨0, by decide⟩).translation_error = none) :=
  claim_C7 c7Env c7Oracle c7In c7Out 0 rfl (by decide) (by decide) rfl

/-! ## C2 and C6: block alignment and the retry policy -/

lemma tryAttempts_le_three (f : Nat → TransOutcome) (k : Nat) :
    (tryAttempts f k).2.1 ≤ 3 := by
  unfold tryAttempts
  cases h1 : f 1 <;> simp [h1]
  cases h2 : f 2 <;> simp [h2]
  cases h3 : f 3 <;> simp [h3]

lemma tryAttempts_sleeps (f : Nat → TransOutcome) (k : Nat) :
    (tryAttempts f k).2.2 = [k, 2 * k].take ((tryAttempts f k).2.1 - 1) := by
  unfold tryAttempts
  cases h1 : f 1 <;> simp [h1]
  cases h2 : f 2 <;> simp [h2]
  cases h3 : f 3 <;> simp [h3]

lemma translateBlocksGo_spec (f : Nat → Nat → TransOutcome) :
    ∀ (blocks : List String) (j : Nat) (bs : List String),
      translateBlocksGo f j blocks = .ok bs →
      bs.length = blocks.length ∧
      ∀ q (hq : q < blocks.length) (hq2 : q < bs.length),
        (pyStrip (blocks.get ⟨q, hq⟩) = "" → bs.get ⟨q, hq2⟩ = "") ∧
        (pyStrip (blocks.get ⟨q, hq⟩) ≠ "" →
          ∃ t, (tryAttempts (f (j + q + 1)) 1).1 = .ok t ∧
            bs.get ⟨q, hq2⟩ = (if t = "" then "" else t))
  | [], j, bs => by
      intro h
      unfold translateBlocksGo at h
      simp at h
      subst h
      exact ⟨rfl, fun q hq => absurd hq (by simp)⟩
  | b :: rest, j, bs => by
      intro h
      unfold translateBlocksGo at h
      by_cases hb : pyStrip b = ""
      · rw [if_pos hb] at h
        cases hrest : translateBlocksGo f (j + 1) rest with
        | error m => rw [hrest] at h; simp [Except.map] at h
        | ok bs' =>
            rw [hrest] at h
            simp [Except.map] at h
            subst h
            obtain ⟨hlen, hget⟩ := translateBlocksGo_spec f rest (j + 1) bs' hrest
            refine ⟨by simp [hlen], ?_⟩
            intro q hq hq2
            cases q with
            | zero => exact ⟨fun _ => rfl, fun hnb => absurd hb hnb⟩
            | succ q' =>
                have hq' : q' < rest.length := by simpa using hq
                have hq2' : q' < bs'.length := by simpa using hq2
                have := hget q' hq' hq2'
                refine ⟨this.1, ?_⟩
                intro hnb
                obtain ⟨t, ht, hv⟩ := this.2 hnb
                refine ⟨t, ?_, hv⟩
                rw [show j + (q' + 1) + 1 = j + 1 + q' + 1 by omega]
                exact ht
      · rw [if_neg hb] at h
        cases htry : (tryAttempts (f (j + 1)) 1).1 with
        | error m => rw [htry] at h; simp at h
        | ok t =>
            rw [htry] at h
            cases hrest : translateBlocksGo f (j + 1) rest with
            | error m => rw [hrest] at h; simp [Except.map] at h
            | ok bs' =>
                rw [hrest] at h
                simp [Except.map] at h
                subst h
                obtain ⟨hlen, hget⟩ := translateBlocksGo_spec f rest (j + 1) bs' hrest
                refine ⟨by simp [hlen], ?_⟩
                intro q hq hq2
                cases q with
                | zero =>
                    refine ⟨fun hbb => absurd hbb hb, ?_⟩
                    intro _
                    exact ⟨t, by simpa using htry, rfl⟩
                | succ q' =>
                    have hq' : q' < rest.length := by simpa using hq
                    have hq2' : q' < bs'.length := by simpa using hq2
                    have := hget q' hq' hq2'
                    refine ⟨this.1, ?_⟩
                    intro hnb
                    obtain ⟨t', ht', hv⟩ := this.2 hnb
                    refine ⟨t', ?_, hv⟩
                    rw [show j + (q' + 1) + 1 = j + 1 + q' + 1 by omega]
                    exact ht'

/-- C2: whenever translation succeeds for a slide (non-empty
`translated_text`, no error tag), the record's `translated_blocks` has
exactly the length of the slide's `text_blocks`, blank originals yield
empty strings at the same position, and each non-blank position holds
the translation the engine returned for that very block. -/
theorem claim_C2 (env : EngineEnv) (O : Nat → Nat → Nat → TransOutcome)
    (slides recs : List MainSlide) (p : Nat)
    (hok : translateTexts env O slides = .ok recs)
    (hp : p < recs.length) (hp2 : p < slides.length)
    (hne : (recs.get ⟨p, hp⟩).translated_text.getD "" ≠ "")
    (herr : (recs.get ⟨p, hp⟩).translation_error = none) :
    ((recs.get ⟨p, hp⟩).translated_blocks.getD []).length
        = (slides.get ⟨p, hp2⟩).text_blocks.length ∧
    ∀ q (hq : q < (slides.get ⟨p, hp2⟩).text_blocks.length)
        (hq2 : q < ((recs.get ⟨p, hp⟩).translated_blocks.getD []).length),
      (pyStrip ((slides.get ⟨p, hp2⟩).text_blocks.get ⟨q, hq⟩) = "" →
        ((recs.get ⟨p, hp⟩).translated_blocks.getD []).get ⟨q, hq2⟩ = "") ∧
      (pyStrip ((slides.get ⟨p, hp2⟩).text_blocks.get ⟨q, hq⟩) ≠ "" →
        ∃ t, (tryAttempts (O (p + 1) (q + 1)) 1).1 = .ok t ∧
          ((recs.get ⟨p, hp⟩).translated_blocks.getD []).get ⟨q, hq2⟩
            = (if t = "" then "" else t)) := by
  have hget := translateTexts_get hok p hp hp2
  set s := slides.get ⟨p, hp2⟩ with hs
  rcases translateSlide_char (O (p + 1)) s with
    ⟨hb, heq⟩ | ⟨hb, m, heq⟩ | ⟨hb, t, bs, hts, htry, hbl, heq⟩
  · rw [hget, heq] at hne
    simp at hne
  · rw [hget, heq] at hne
    simp [transErrorRecord] at hne
  · rw [hget, heq]
    obtain ⟨hlen, hspec⟩ := translateBlocksGo_spec (O (p + 1)) s.text_blocks 0 bs hbl
    refine ⟨by simpa using hlen, ?_⟩
    intro q hq hq2
    have hq2' : q < bs.length := by simpa using hq2
    have := hspec q hq hq2'
    refine ⟨this.1, ?_⟩
    intro hnb
    obtain ⟨tv, htv2, hvv⟩ := this.2 hnb
    exact ⟨tv, by simpa using htv2, hvv⟩

/-- A job in which every translation attempt succeeds. -/
def c2Oracle : Nat → Nat → Nat → TransOutcome := fun _ _ _ => .ok "translated"

def c2Slide : MainSlide :=
  { slide_number := 1
    text := "Hello"
    text_blocks := ["First block", "", "Second block"]
    original_text := none
    ai_narration := none
    enriched_text := none
    translated_text := none
    translated_blocks := none
    translation_error := none }

def c2In : List MainSlide := [c2Slide]

def c2Out : List MainSlide :=
  [{ c2Slide with
      translated_text := some "translated"
      translated_blocks := some ["translated", "", "translated"] }]

/-- C2, witness: a concrete successful slide with three blocks, the
middle one blank. -/
theorem claim_C2_witness :
    ((c2Out.get ⟨0, by decide⟩).translated_blocks.getD []).length
      = (c2In.get ⟨0, by decide⟩).text_blocks.length :=
  (claim_C2 c7Env c2Oracle c2In c2Out 0 rfl (by decide) (by decide)
    (by decide) rfl).1

/-- A job in which every translation attempt raises. -/
def c6Oracle : Nat → Nat → Nat → TransOutcome := fun _ _ _ => .exn "timeout"

def c6Slide : MainSlide :=
  { slide_number := 1
    text := "Guten Tag"
    text_blocks := []
    original_text := none
    ai_narration := none
    enriched_text := none
    translated_text := none
    translated_blocks := none
    translation_error := none }

def c6In : List MainSlide := [c6Slide]

def c6Out : List MainSlide := [transErrorRecord c6Slide "timeout"]

/-- C6: for every non-blank slide the main text is attempted at most 3
times, the sleeps between whole-slide attempts are 2 s then 4 s
(`attempt × 2`), the sleeps between per-block attempts follow
`attempt × 1`, and when all 3 attempts fail the slide's record carries an
empty `translated_text` together with the `translation_error` tag while
the stage still emits one record per input slide (the job continues). -/
theorem claim_C6 (env : EngineEnv) (O : Nat → Nat → Nat → TransOutcome)
    (slides recs : List MainSlide) (p : Nat)
    (hok : translateTexts env O slides = .ok recs)
    (hp : p < recs.length) (hp2 : p < slides.length)
    (hblank : pyStrip (slides.get ⟨p, hp2⟩).text ≠ "") :
    (tryAttempts (O (p + 1) 0) 2).2.1 ≤ 3 ∧
    (tryAttempts (O (p + 1) 0) 2).2.2 =
      [2, 4].take ((tryAttempts (O (p + 1) 0) 2).2.1 - 1) ∧
    (∀ f : Nat → TransOutcome,
      (tryAttempts f 1).2.1 ≤ 3 ∧
      (tryAttempts f 1).2.2 = [1, 2].take ((tryAttempts f 1).2.1 - 1)) ∧
    (∀ m, (tryAttempts (O (p + 1) 0) 2).1 = .error m →
      (recs.get ⟨p, hp⟩).translated_text = some "" ∧
      (recs.get ⟨p, hp⟩).translation_error = some m) ∧
    recs.length = slides.length := by
  refine ⟨tryAttempts_le_three _ 2, ?_, ?_, ?_, translateTexts_length hok⟩
  · have h := tryAttempts_sleeps (O (p + 1) 0) 2
    simpa using h
  · intro f
    refine ⟨tryAttempts_le_three f 1, ?_⟩
    have h := tryAttempts_sleeps f 1
    simpa using h
  · intro m hm
    rw [translateTexts_get hok p hp hp2]
    unfold translateSlide
    rw [if_neg hblank, hm]
    exact ⟨rfl, rfl⟩

/-- C6, witness: a slide whose three attempts all fail is recorded with
empty translation and the error tag. -/
theorem claim_C6_witness :
    (c6Out.get ⟨0, by decide⟩).translated_text = some "" ∧
    (c6Out.get ⟨0, by decide⟩).translation_error = some "timeout" :=
  (claim_C6 c7Env c6Oracle c6In c6Out 0 rfl (by decide) (by decide)
    (by decide)).2.2.2.1 "timeout" rfl

/-! ## C4, C9, C10: narrator lemmas -/

lemma narrateAttempt2_spec (i : Nat) (text enriched : String)
    (g : Nat → GenResult) :
    ((narrateAttempt2 i text enriched g).2.1 = none ∧
      (narrateAttempt2 i text enriched g).1 = enriched) ∨
    (∃ resp, g 2 = .ok resp ∧ pyStrip resp ≠ "" ∧
      (narrateAttempt2 i text enriched g).1 = pyStrip resp ∧
      (narrateAttempt2 i text enriched g).2.1 = some ⟨i, text, pyStrip resp⟩) := by
  unfold narrateAttempt2
  split
  next resp h2 =>
    by_cases hr : pyStrip resp ≠ ""
    · right; exact ⟨resp, h2, hr, by simp [hr], by simp [hr]⟩
    · left; constructor <;> simp [hr]
  next h2 => left; exact ⟨rfl, rfl⟩
  next h2 => left; exact ⟨rfl, rfl⟩
  next h2 => left; exact ⟨rfl, rfl⟩

lemma narrateAttempts_spec (i : Nat) (text enriched : String)
    (g : Nat → GenResult) :
    ((narrateAttempts i text enriched g).2.1 = none ∧
      (narrateAttempts i text enriched g).1 = enriched) ∨
    (∃ resp, (g 1 = .ok resp ∨ g 2 = .ok resp) ∧ pyStrip resp ≠ "" ∧
      (narrateAttempts i text enriched g).1 = pyStrip resp ∧
      (narrateAttempts i text enriched g).2.1 = some ⟨i, text, pyStrip resp⟩) := by
  unfold narrateAttempts
  split
  next resp h1 =>
    by_cases hr : pyStrip resp ≠ ""
    · right; exact ⟨resp, Or.inl h1, hr, by simp [hr], by simp [hr]⟩
    · simp only [if_neg hr]
      rcases narrateAttempt2_spec i text enriched g with ⟨ha, hb⟩ | ⟨r, h2, hrr, hv, he⟩
      · left; exact ⟨ha, hb⟩
      · right; exact ⟨r, Or.inr h2, hrr, hv, he⟩
  next h1 => left; exact ⟨rfl, rfl⟩
  next h1 =>
    rcases narrateAttempt2_spec i text enriched g with ⟨ha, hb⟩ | ⟨r, h2, hrr, hv, he⟩
    · left; exact ⟨ha, hb⟩
    · right; exact ⟨r, Or.inr h2, hrr, hv, he⟩
  next h1 =>
    rcases narrateAttempt2_spec i text enriched g with ⟨ha, hb⟩ | ⟨r, h2, hrr, hv, he⟩
    · left; exact ⟨ha, hb⟩
    · right; exact ⟨r, Or.inr h2, hrr, hv, he⟩

/-- Every step either leaves the history alone or appends exactly the
entry `{slide_number := i, text := stripped text, narration}` whose
narration is the stripped text of a successful generation response. -/
lemma narrateStep_hist (g : Nat → Nat → GenResult) (eO : Nat → Option String)
    (eOn : Bool) (st : NarState) (i : Nat) (s : NarSlide) :
    (narrateStep g eO eOn st i s).2.hist = st.hist ∨
    ∃ resp, (g i 1 = .ok resp ∨ g i 2 = .ok resp) ∧ pyStrip resp ≠ "" ∧
      (narrateStep g eO eOn st i s).1.ai_narration = pyStrip resp ∧
      (narrateStep g eO eOn st i s).2.hist =
        st.hist ++ [⟨i, pyStrip s.text, pyStrip resp⟩] := by
  unfold narrateStep
  by_cases h1 : pyLen (pyStrip s.text) < 5
  · left; simp [h1]
  · by_cases h2 : st.apiDisabled
    · left; simp [h1, h2]
    · simp only [h1, h2, if_false, ite_false, if_neg, Bool.false_eq_true]
      rcases narrateAttempts_spec i (pyStrip s.text)
          (if eOn then match eO i with | some e => (e, some e) | none => (pyStrip s.text, none)
            else (pyStrip s.text, none)).1 (g i) with ⟨ha, _⟩ | ⟨r, hgen, hrr, hv, he⟩
      · left; simp [h1, h2, ha]
      · right; exact ⟨r, hgen, hrr, by simp [h1, h2, hv], by simp [h1, h2, he]⟩

lemma narrateStep_callLog (g : Nat → Nat → GenResult) (eO : Nat → Option String)
    (eOn : Bool) (st : NarState) (i : Nat) (s : NarSlide) :
    ∀ c ∈ (narrateStep g eO eOn st i s).2.callLog, c ∈ st.callLog ∨ c = i := by
  unfold narrateStep
  by_cases h1 : pyLen (pyStrip s.text) < 5
  · intro c hc; simp [h1] at hc; exact Or.inl hc
  · by_cases h2 : st.apiDisabled
    · intro c hc; simp [h1, h2] at hc; exact Or.inl hc
    · intro c hc
      simp only [h1, h2, if_false, ite_false, Bool.false_eq_true] at hc
      rcases List.mem_append.mp hc with hc | hc
      · exact Or.inl hc
      · exact Or.inr (List.eq_of_mem_replicate hc)

/-- From a tripped-breaker state, every remaining slide passes through
with its stripped text and the state does not change at all. -/
lemma narrateStep_disabled (g : Nat → Nat → GenResult) (eO : Nat → Option String)
    (eOn : Bool) (st : NarState) (i : Nat) (s : NarSlide)
    (h : st.apiDisabled = true) :
    narrateStep g eO eOn st i s =
      ({ text := s.text, ai_narration := pyStrip s.text, enriched_text := none }, st) := by
  unfold narrateStep
  by_cases h1 : pyLen (pyStrip s.text) < 5 <;> simp [h1, h]

lemma narrateGo_disabled (g : Nat → Nat → GenResult) (eO : Nat → Option String)
    (eOn : Bool) (l : List NarSlide) :
    ∀ (i : Nat) (st : NarState), st.apiDisabled = true →
      narrateGo g eO eOn i st l =
        (l.map fun s =>
          ({ text := s.text, ai_narration := pyStrip s.text,
             enriched_text := none } : NarOut), st) := by
  induction l with
  | nil => intro i st _; rfl
  | cons s rest ih =>
      intro i st h
      unfold narrateGo
      simp only [narrateStep_disabled g eO eOn st i s h, ih (i + 1) st h]
      simp

lemma narrateGo_length (g : Nat → Nat → GenResult) (eO : Nat → Option String)
    (eOn : Bool) (l : List NarSlide) :
    ∀ (i : Nat) (st : NarState), (narrateGo g eO eOn i st l).1.length = l.length := by
  induction l with
  | nil => intro i st; rfl
  | cons s rest ih =>
      intro i st
      unfold narrateGo
      simp [ih]

lemma narrateGo_callLog (g : Nat → Nat → GenResult) (eO : Nat → Option String)
    (eOn : Bool) (l : List NarSlide) :
    ∀ (i : Nat) (st : NarState) (c : Nat),
      c ∈ (narrateGo g eO eOn i st l).2.callLog →
      c ∈ st.callLog ∨ (i ≤ c ∧ c < i + l.length) := by
  induction l with
  | nil => intro i st c h; exact Or.inl h
  | cons s rest ih =>
      intro i st c h
      unfold narrateGo at h
      rcases ih (i + 1) (narrateStep g eO eOn st i s).2 c h with hc | ⟨ha, hb⟩
      · rcases narrateStep_callLog g eO eOn st i s c hc with hc | hc
        · exact Or.inl hc
        · right
          simp only [List.length_cons]
          omega
      · right
        simp only [List.length_cons]
        omega

lemma narrateGo_split (g : Nat → Nat → GenResult) (eO : Nat → Option String)
    (eOn : Bool) (k : Nat) (l : List NarSlide) :
    ∀ (i : Nat) (st : NarState),
      narrateGo g eO eOn i st l =
        ((narrateGo g eO eOn i st (l.take k)).1 ++
          (narrateGo g eO eOn (i + (l.take k).length)
            (narrateGo g eO eOn i st (l.take k)).2 (l.drop k)).1,
         (narrateGo g eO eOn (i + (l.take k).length)
            (narrateGo g eO eOn i st (l.take k)).2 (l.drop k)).2) := by
  induction k generalizing l with
  | zero => intro i st; simp [narrateGo]
  | succ k' ih =>
      intro i st
      cases l with
      | nil => simp [narrateGo]
      | cons s rest =>
          simp only [narrateGo, List.take_succ_cons, List.drop_succ_cons,
            List.length_cons]
          rw [ih rest (i + 1) (narrateStep g eO eOn st i s).2]
          have harith : i + ((List.take k' rest).length + 1)
              = i + 1 + (List.take k' rest).length := by omega
          rw [harith]
          simp

/-- C4: if the circuit breaker is tripped while processing the first `k`
slides, then every slide after position `k` receives its stripped
pre-narration text as `ai_narration`, and every generation call of the
whole run belongs to a slide of index at most `k` — the call count stays
at the slides up to `k`, not `N`. -/
theorem claim_C4 (g : Nat → Nat → GenResult) (eO : Nat → Option String)
    (eOn : Bool) (slides : List NarSlide) (k : Nat)
    (hdis : (narrateGo g eO eOn 1 initNarState (slides.take k)).2.apiDisabled = true) :
    (∀ out ∈ (narrateSlides g eO eOn slides).1.drop k,
      out.ai_narration = pyStrip out.text) ∧
    (∀ c ∈ (narrateSlides g eO eOn slides).2.callLog, c ≤ k) := by
  have hsplit := narrateGo_split g eO eOn k slides 1 initNarState
  have hpost := narrateGo_disabled g eO eOn (slides.drop k)
    (1 + (slides.take k).length)
    (narrateGo g eO eOn 1 initNarState (slides.take k)).2 hdis
  constructor
  · intro out hout
    unfold narrateSlides at hout
    rw [hsplit] at hout
    simp only [hpost] at hout
    rw [List.drop_append_eq_append_drop] at hout
    have hlen : (narrateGo g eO eOn 1 initNarState (slides.take k)).1.length
        = (slides.take k).length := narrateGo_length g eO eOn (slides.take k) 1 _
    have hlk : (narrateGo g eO eOn 1 initNarState (slides.take k)).1.length ≤ k := by
      rw [hlen, List.length_take]
      omega
    rw [List.drop_eq_nil_of_le hlk] at hout
    simp only [List.nil_append] at hout
    have hout2 := List.mem_of_mem_drop hout
    obtain ⟨s, _, rfl⟩ := List.mem_map.mp hout2
    rfl
  · intro c hc
    unfold narrateSlides at hc
    rw [hsplit] at hc
    simp only [hpost] at hc
    have := narrateGo_callLog g eO eOn (slides.take k) 1 initNarState c hc
    rcases this with h0 | ⟨_, h2⟩
    · simp [initNarState] at h0
    · have := List.length_take k slides
      omega

def c4Gen : Nat → Nat → GenResult := fun _ _ => .errCritical

def c4Enrich : Nat → Option String := fun _ => none

def c4Slides : List NarSlide :=
  [⟨"Alpha slide content"⟩, ⟨"Beta slide content"⟩, ⟨"Gamma slide content"⟩]

/-- C4, witness: a critical error on slide 1 makes slide 2 pass through
with its stripped text. -/
theorem claim_C4_witness :
    (((narrateSlides c4Gen c4Enrich false c4Slides).1.drop 1).headD
        ⟨"", "", none⟩).ai_narration =
      pyStrip (((narrateSlides c4Gen c4Enrich false c4Slides).1.drop 1).headD
        ⟨"", "", none⟩).text :=
  (claim_C4 c4Gen c4Enrich false c4Slides 1 rfl).1 _ (by decide)

/-- C10: after any number of processed slides, the conversation history
of `narrate_slides` contains only entries whose narration is non-empty
after stripping and is the stripped text of a response some generation
call returned successfully for that very slide (fallback text never
enters), and the entries' slide numbers are strictly increasing. -/
theorem claim_C10 (g : Nat → Nat → GenResult) (eO : Nat → Option String)
    (eOn : Bool) (slides : List NarSlide) (k : Nat) :
    List.Chain' (fun a b => a.slide_number < b.slide_number)
      (narrateGo g eO eOn 1 initNarState (slides.take k)).2.hist ∧
    ∀ e ∈ (narrateGo g eO eOn 1 initNarState (slides.take k)).2.hist,
      pyStrip e.narration ≠ "" ∧
      ∃ resp, (g e.slide_number 1 = .ok resp ∨ g e.slide_number 2 = .ok resp) ∧
        e.narration = pyStrip resp := by
  suffices h : ∀ (l : List NarSlide) (i : Nat) (st : NarState),
      List.Chain' (fun a b => a.slide_number < b.slide_number) st.hist →
      (∀ e ∈ st.hist, e.slide_number < i) →
      (∀ e ∈ st.hist, pyStrip e.narration ≠ "" ∧
        ∃ resp, (g e.slide_number 1 = .ok resp ∨ g e.slide_number 2 = .ok resp) ∧
          e.narration = pyStrip resp) →
      List.Chain' (fun a b => a.slide_number < b.slide_number)
        (narrateGo g eO eOn i st l).2.hist ∧
      (∀ e ∈ (narrateGo g eO eOn i st l).2.hist, e.slide_number < i + l.length) ∧
      (∀ e ∈ (narrateGo g eO eOn i st l).2.hist, pyStrip e.narration ≠ "" ∧
        ∃ resp, (g e.slide_number 1 = .ok resp ∨ g e.slide_number 2 = .ok resp) ∧
          e.narration = pyStrip resp) by
    obtain ⟨h1, _, h3⟩ := h (slides.take k) 1 initNarState (by simp [initNarState])
      (by simp [initNarState]) (by simp [initNarState])
    exact ⟨h1, h3⟩
  intro l
  induction l with
  | nil => intro i st hc hb hp; exact ⟨hc, fun e he => by have := hb e he; omega, hp⟩
  | cons s rest ih =>
      intro i st hc hb hp
      have hstep := narrateStep_hist g eO eOn st i s
      set st2 := (narrateStep g eO eOn st i s).2 with hst2
      have hnext :
          List.Chain' (fun a b => a.slide_number < b.slide_number) st2.hist ∧
          (∀ e ∈ st2.hist, e.slide_number < i + 1) ∧
          (∀ e ∈ st2.hist, pyStrip e.narration ≠ "" ∧
            ∃ resp, (g e.slide_number 1 = .ok resp ∨ g e.slide_number 2 = .ok resp) ∧
              e.narration = pyStrip resp) := by
        rcases hstep with heq | ⟨resp, hgen, hrr, _, heq⟩
        · rw [heq]
          exact ⟨hc, fun e he => by have := hb e he; omega, hp⟩
        · rw [heq]
          refine ⟨?_, ?_, ?_⟩
          · refine List.Chain'.append hc (by simp) ?_
            intro x hx y hy
            have hx2 := List.mem_of_mem_getLast? hx
            simp at hy
            rw [← hy]
            exact hb x hx2
          · intro e he
            rcases List.mem_append.mp he with he | he
            · have := hb e he; omega
            · simp at he
              subst he
              exact Nat.lt_succ_self i
          · intro e he
            rcases List.mem_append.mp he with he | he
            · exact hp e he
            · simp at he
              subst he
              refine ⟨?_, resp, hgen, rfl⟩
              rw [pyStrip_idem]
              exact hrr
      obtain ⟨h1, h2, h3⟩ := ih (i + 1) st2 hnext.1 hnext.2.1 hnext.2.2
      refine ⟨?_, ?_, ?_⟩
      · unfold narrateGo
        exact h1
      · unfold narrateGo
        intro e he
        have := h2 e he
        simp only [List.length_cons]
        omega
      · unfold narrateGo
        exact h3

def c10Gen : Nat → Nat → GenResult :=
  fun _ _ => .ok "  A well formed narration sentence.  "

/-- C10, witness: in a run whose calls all succeed, the single recorded
entry for the first slide satisfies the invariant. -/
theorem claim_C10_witness :
    pyStrip (HistEntry.mk 1 "Alpha slide content"
      "A well formed narration sentence.").narration ≠ "" ∧
    ∃ resp, (c10Gen (HistEntry.mk 1 "Alpha slide content"
        "A well formed narration sentence.").slide_number 1 = .ok resp ∨
      c10Gen (HistEntry.mk 1 "Alpha slide content"
        "A well formed narration sentence.").slide_number 2 = .ok resp) ∧
      (HistEntry.mk 1 "Alpha slide content"
        "A well formed narration sentence.").narration = pyStrip resp :=
  (claim_C10 c10Gen c4Enrich false c4Slides 1).2 _ (by decide)

/-! ## C9: the conversation window -/

def c9Gen : Nat → Nat → GenResult :=
  fun _ _ => .ok "A generated narration for this slide."

/-- C9, counterexample: in a three-slide run whose generations all
succeed, the stored conversation history holds 3 entries, so it is not
truncated to the last 2 entries. -/
theorem claim_C9_counterexample :
    (narrateSlides c9Gen c4Enrich false c4Slides).2.hist.length = 3 ∧
    2 < (narrateSlides c9Gen c4Enrich false c4Slides).2.hist.length := by
  have h : (narrateSlides c9Gen c4Enrich false c4Slides).2.hist.length = 3 := rfl
  exact ⟨h, by rw [h]; omega⟩

/-- C9, amended: on a successful generation the entry
`{slide_number, text, narration}` is appended to the conversation
history; the stored history itself is never truncated (it can exceed 2
entries), but prompt construction only consults its last 2 entries, so
the effective context window is the last two narrations. -/
theorem claim_C9 (g : Nat → Nat → GenResult) (eO : Nat → Option String)
    (eOn : Bool) (st : NarState) (i : Nat) (s : NarSlide)
    (style slideText : String) (n total : Nat) (hist : List HistEntry) :
    ((narrateStep g eO eOn st i s).2.hist = st.hist ∨
      (narrateStep g eO eOn st i s).2.hist =
        st.hist ++ [⟨i, pyStrip s.text,
          (narrateStep g eO eOn st i s).1.ai_narration⟩]) ∧
    buildContextAwarePrompt style slideText n total hist =
      buildContextAwarePrompt style slideText n total (lastN 2 hist) := by
  constructor
  · rcases narrateStep_hist g eO eOn st i s with heq | ⟨resp, _, _, hv, heq⟩
    · exact Or.inl heq
    · right
      rw [heq, hv]
  · by_cases h1 : n = 1
    · simp [buildContextAwarePrompt, h1]
    · by_cases h2 : n = total
      · simp [buildContextAwarePrompt, h1, h2, lastN_getLast?]
      · simp [buildContextAwarePrompt, h1, h2, lastN_lastN]

/-! ## C3: recorded durations are positive -/

/-- Sanity of the external decoder: a successfully measured duration is
at least 0.01 s (one round(·, 2) quantum); every real decoder satisfies
this for a playable asset.  The failure constructors carry no measured
duration and need no assumption. -/
def decodeSane : SynthOutcome → Prop
  | .cloudOk _ (.ok d) => 1 / 100 ≤ d
  | .cloudOk _ .fail => True
  | .gttsOk _ d => 1 / 100 ≤ d
  | .gttsFail => True

lemma le_recordedDuration (cleaned : String) (oc : Option SynthOutcome)
    (h : ∀ o, oc = some o → decodeSane o) :
    1 / 100 ≤ ttsRecordedDuration cleaned oc := by
  unfold ttsRecordedDuration
  cases oc with
  | none => norm_num
  | some o =>
      have hs := h o rfl
      unfold generateAudioForText
      by_cases hb : pyStrip cleaned = ""
      · simp only [hb, if_true, ite_true]
        norm_num
      · simp only [hb, if_false, ite_false]
        cases o with
        | cloudOk b dec =>
            cases dec with
            | ok d =>
                simp only [decodeSane] at hs
                split_ifs <;> [exact hs; norm_num]
            | fail =>
                split_ifs
                · have h2 : (2 : ℚ) ≤ max ((pyWordCount cleaned : ℚ) / (23 / 10)) 2 :=
                    le_max_right _ _
                  linarith
                · norm_num
        | gttsOk b d =>
            simp only [decodeSane] at hs
            split_ifs <;> [exact hs; norm_num]
        | gttsFail =>
            norm_num

lemma roundHalfEven_ge_one {q : ℚ} (h : 1 ≤ q) : 1 ≤ roundHalfEven q := by
  unfold roundHalfEven
  have hf : 1 ≤ ⌊q⌋ := Int.le_floor.mpr (by exact_mod_cast h)
  dsimp only
  split_ifs <;> omega

lemma pyRound2_pos {x : ℚ} (h : 1 / 100 ≤ x) : 0 < pyRound2 x := by
  unfold pyRound2
  have h1 : (1 : ℚ) ≤ 100 * x := by linarith
  have h2 := roundHalfEven_ge_one h1
  have h3 : (0 : ℚ) < (roundHalfEven (100 * x) : ℚ) := by
    exact_mod_cast (by omega : (0 : ℤ) < roundHalfEven (100 * x))
  exact div_pos h3 (by norm_num)

/-- C3: whatever the synthesis outcome — an exception in the outer try
(`oracle idx = none`), a zero-byte asset, blank input, a decode failure
falling back to the word-count estimate, or a successful decode of a real
asset — the duration recorded on the slide is strictly positive, the
failure paths using the fixed 3.0 s floor and blank input a positive
default. -/
theorem claim_C3 (slides : List TtsSlide) (oracle : Nat → Option SynthOutcome)
    (h : ∀ i o, oracle i = some o → decodeSane o) (p : Nat)
    (hp : p < slides.length) :
    0 < ((generateAudioForJson slides oracle).map Prod.snd).getD p 0 := by
  have hlen : ((generateAudioForJson slides oracle).map Prod.snd).length
      = slides.length := by
    unfold generateAudioForJson
    simp [List.length_mapIdx]
  rw [List.getD_eq_get _ _ (by omega)]
  unfold generateAudioForJson
  rw [List.get_map]
  have hgm := List.get_mapIdx slides
    (fun p s =>
      (s, pyRound2 (ttsRecordedDuration
        (stripLeadingSlideNumber (ttsEffectiveText (p + 1) s)) (oracle (p + 1)))))
    p (by omega)
  rw [hgm]
  exact pyRound2_pos (le_recordedDuration _ _ (fun o ho => h (p + 1) o ho))

def c3Slide : TtsSlide :=
  { slide_number := some 1
    original_text := some "Hello"
    ai_narration := some "A narration"
    enriched_text := some ""
    translated_text := some "Eine Erzählung"
    translated_blocks := some []
    text := none }

def c3Oracle : Nat → Option SynthOutcome := fun _ => some (.gttsOk 2048 (7 / 2))

/-- C3, witness: a slide synthesized by the gTTS fallback with a decoded
duration of 3.5 s records a positive duration. -/
theorem claim_C3_witness :
    0 < ((generateAudioForJson [c3Slide] c3Oracle).map Prod.snd).getD 0 0 :=
  claim_C3 [c3Slide] c3Oracle
    (fun i o hi => by
      injection hi with h2
      rw [← h2]
      norm_num [decodeSane])
    0 (by decide)

end PptxConverter
